import Mathlib

/-!
Verification development for the MOS fundamentals-data aggregation engine
(`backend/app/fundamentals.py` and `backend/app/providers/screener_client.py`).

The Python source is shallowly embedded: Python floats are modelled as exact
rationals (`ℚ`), Python `None`-able values as `Option`, dictionaries of known
shape as structures, and raising code as `Except`-valued functions.  Wall-clock
times (`time.time()`) are explicit `ℚ` parameters.  Environment-variable
configuration knobs are embedded at their documented defaults.
-/

set_option autoImplicit false

namespace MOS

/-! ## Python-style string primitives

The source normalises markets and symbols with `str.upper` / `str.strip`,
and the provider parsers work on comma-stripped, upper-cased text.  These
helpers model the corresponding CPython behaviour on the character lists of
the strings involved (ASCII case mapping, whitespace trimming). -/

/-- Model of Python `str.upper` on a character list (ASCII case mapping). -/
def upperCs (cs : List Char) : List Char := cs.map Char.toUpper

/-- Model of Python `str.lower` on a character list (ASCII case mapping). -/
def lowerCs (cs : List Char) : List Char := cs.map Char.toLower

/-- Model of Python `str.strip` on a character list: drop leading and trailing
whitespace. -/
def stripCs (cs : List Char) : List Char :=
  ((cs.dropWhile Char.isWhitespace).reverse.dropWhile Char.isWhitespace).reverse

/-- Model of Python `str.upper` on strings. -/
def pyUpper (s : String) : String := ⟨upperCs s.data⟩

/-- Model of Python `str.strip` on strings. -/
def pyStrip (s : String) : String := ⟨stripCs s.data⟩

/-- Model of Python `str.lower` on strings. -/
def pyLower (s : String) : String := ⟨lowerCs s.data⟩

/-- Does `needle` occur at the start of the list? -/
def isPrefixCs : List Char → List Char → Bool
  | [], _ => true
  | _ :: _, [] => false
  | a :: as, b :: bs => a = b && isPrefixCs as bs

/-- Model of Python `needle in hay` substring containment. -/
def containsCs (needle : List Char) : List Char → Bool
  | [] => needle.isEmpty
  | c :: rest => isPrefixCs needle (c :: rest) || containsCs needle rest

/-- Value of a digit run, most significant first. -/
def digitsToNat (cs : List Char) : Nat :=
  cs.foldl (fun n c => n * 10 + (c.toNat - 48)) 0

/-! ## CooldownGate (`_yahoo_block_for`, `_yahoo_is_blocked`,
`_yahoo_symbol_softblock`, `_yahoo_symbol_is_softblocked`)

The shared `_yahoo_block_until_ts` float and the `_yahoo_fail_until`
per-symbol dictionary are threaded explicitly; `time.time()` is the `now`
parameter.  A dictionary is a total function into `Option ℚ` (`none` means the
key is absent, matching `dict.get`). -/

/-- Embedding of `_yahoo_block_for`: the new value of the shared
`_yahoo_block_until_ts` after `_yahoo_block_for(seconds)` runs at time `now`
with current value `block_until`. -/
def yahoo_block_for (block_until now seconds : ℚ) : ℚ :=
  max block_until (now + seconds)

/-- Embedding of `_yahoo_is_blocked`: `time.time() < _yahoo_block_until_ts`. -/
def yahoo_is_blocked (block_until now : ℚ) : Bool :=
  decide (now < block_until)

/-- Embedding of `_yahoo_symbol_softblock`: normalises the symbol with
`.upper().strip()`, does nothing for an empty key, otherwise raises that key's
expiry to `max(old or 0.0, now + minutes*60)`. -/
def yahoo_symbol_softblock (fail_until : String → Option ℚ) (symbol : String)
    (now minutes : ℚ) : String → Option ℚ :=
  let sym := pyStrip (pyUpper symbol)
  if sym = "" then fail_until
  else fun k =>
    if k = sym then some (max ((fail_until sym).getD 0) (now + minutes * 60))
    else fail_until k

/-- Embedding of `_yahoo_symbol_is_softblocked`: `bool(until and now < until)`
for the normalised symbol — an absent key and a `0.0` expiry (falsy float) both
read as not blocked. -/
def yahoo_symbol_is_softblocked (fail_until : String → Option ℚ) (symbol : String)
    (now : ℚ) : Bool :=
  let sym := pyStrip (pyUpper symbol)
  if sym = "" then false
  else
    match fail_until sym with
    | none => false
    | some u => if u = 0 then false else decide (now < u)

/-! ## Screener numeric parsing (`providers/screener_client.py`)

`_to_float` extracts the first match of the regular expression
`[-+]?\d*\.?\d+` from the comma-stripped, stripped text and converts it with
`float` (modelled exactly over `ℚ`).  The scanner below implements the
leftmost greedy match of that pattern. -/

/-- Model of Python `text.replace(",", "")`. -/
def removeCommas (cs : List Char) : List Char := cs.filter (fun c => c ≠ ',')

/-- Numeric value of an unsigned regex match (digits, optional dot, digits). -/
def parseUnsignedNum (cs : List Char) : ℚ :=
  let intPart := cs.takeWhile Char.isDigit
  let rest := cs.dropWhile Char.isDigit
  match rest with
  | '.' :: frac =>
    let fd := frac.takeWhile Char.isDigit
    (digitsToNat intPart : ℚ) + (digitsToNat fd : ℚ) / (10 : ℚ) ^ fd.length
  | _ => (digitsToNat intPart : ℚ)

/-- Numeric value of a full regex match, including an optional sign. -/
def parseNumCs (cs : List Char) : ℚ :=
  match cs with
  | '-' :: rest => -(parseUnsignedNum rest)
  | '+' :: rest => parseUnsignedNum rest
  | _ => parseUnsignedNum cs

/-- Greedy match of `[-+]?\d*\.?\d+` anchored at the head of the list, or
`none` when the pattern cannot match here. -/
def matchNumAt (cs : List Char) : Option (List Char) :=
  let core : List Char → Option (List Char) := fun cs1 =>
    let d1 := cs1.takeWhile Char.isDigit
    let cs2 := cs1.dropWhile Char.isDigit
    match cs2 with
    | '.' :: r =>
      let d2 := r.takeWhile Char.isDigit
      if d2.isEmpty then (if d1.isEmpty then none else some d1)
      else some (d1 ++ '.' :: d2)
    | _ => if d1.isEmpty then none else some d1
  match cs with
  | [] => none
  | c :: rest =>
    if c = '-' ∨ c = '+' then (core rest).map (fun m => c :: m)
    else core (c :: rest)

/-- Leftmost match of `[-+]?\d*\.?\d+`, as produced by `re.search`. -/
def findNumCs : List Char → Option (List Char)
  | [] => none
  | c :: rest =>
    match matchNumAt (c :: rest) with
    | some m => some m
    | none => findNumCs rest

/-- Embedding of `screener_client._to_float`: empty/falsy text gives `None`;
otherwise strip commas and whitespace, search for the first number, and
convert it. -/
def screener_to_float (text : List Char) : Option ℚ :=
  if text.isEmpty then none
  else (findNumCs (stripCs (removeCommas text))).map parseNumCs

/-- Embedding of `screener_client._parse_market_cap_to_inr`: normalise the
text (drop commas, strip, upper-case), extract the number, and multiply by
`1e7` when the normalised text carries a `CR` (crore) suffix. -/
def parse_market_cap_to_inr (text : List Char) : Option ℚ :=
  if text.isEmpty then none
  else
    let t := upperCs (stripCs (removeCommas text))
    match screener_to_float t with
    | none => none
    | some num => if containsCs ['C', 'R'] t then some (num * 10 ^ 7) else some num

/-- Embedding of the derived price-to-book assignment in
`fetch_screener_snapshot`: `snap.pb` is set to `current_price / book_value`
exactly when the price is present and the book value is neither `None` nor
`0.0`; otherwise it keeps its `None` default. -/
def derive_pb (current_price book_value : Option ℚ) : Option ℚ :=
  match current_price, book_value with
  | some p, some b => if b = 0 then none else some (p / b)
  | _, _ => none

/-! ## Staleness (`_is_stale`)

`_is_stale` replaces a trailing `Z` with `+00:00`, parses the string with
`datetime.fromisoformat`, and compares the age against `ttl_days * 86400`.
The parser below models the `fromisoformat` grammar for the timestamp shapes
this system produces and consumes:
`YYYY-MM-DD(T| )HH:MM[:SS[.f{1,6}]][±HH:MM]`, with calendar and range
validation.  It returns the POSIX timestamp (seconds) of the instant.
Results without a UTC offset are mapped to `none`: the subsequent
`aware - naive` subtraction in `_is_stale` raises, which lands in the same
`except` branch as a parse failure, and a date-only string is likewise naive. -/

/-- Model of Python `s.replace("Z", "+00:00")`. -/
def replaceZ : List Char → List Char
  | [] => []
  | 'Z' :: rest => '+' :: '0' :: '0' :: ':' :: '0' :: '0' :: replaceZ rest
  | c :: rest => c :: replaceZ rest

/-- Gregorian leap-year test. -/
def isLeapYear (y : Nat) : Bool := y % 4 = 0 && (y % 100 ≠ 0 || y % 400 = 0)

/-- Number of days in a month of the proleptic Gregorian calendar. -/
def daysInMonth (y m : Nat) : Nat :=
  if m = 2 then (if isLeapYear y then 29 else 28)
  else if m = 4 ∨ m = 6 ∨ m = 9 ∨ m = 11 then 30 else 31

/-- Days in the months strictly before month `m` of year `y`. -/
def daysBeforeMonth (y m : Nat) : Nat :=
  (List.range (m - 1)).foldl (fun acc i => acc + daysInMonth y (i + 1)) 0

/-- Proleptic Gregorian ordinal of a date, with `0001-01-01` as day `1`
(Python `date.toordinal`). -/
def toOrdinal (y m d : Nat) : Nat :=
  365 * (y - 1) + (y - 1) / 4 - (y - 1) / 100 + (y - 1) / 400 + daysBeforeMonth y m + d

/-- POSIX timestamp, in integer microseconds, of a civil date-time with a UTC
offset of `offMin` minutes; `1970-01-01` has ordinal `719163`.  `datetime`
stores microsecond precision and `timedelta.total_seconds()` is exactly
microseconds divided by `1e6`, so integer microseconds embed the float
comparison of `_is_stale` exactly. -/
def tsToEpochUs (y mo da hh mi ss fracUs : Nat) (offMin : ℤ) : ℤ :=
  (((toOrdinal y mo da : ℤ) - 719163) * 86400
      + ((hh * 3600 + mi * 60 + ss : Nat) : ℤ)) * 1000000
    + (fracUs : ℤ) - offMin * 60 * 1000000

/-- Value in microseconds of a fractional-seconds digit run (at most six
digits). -/
def fracToMicros (ds : List Char) : Nat := digitsToNat ds * 10 ^ (6 - ds.length)

/-- Parse the trailing `±HH:MM` UTC offset and finish the timestamp; an empty
tail means the result is naive, which `_is_stale` cannot use (see above). -/
def parseOffsetTail (y mo da hh mi ss fracUs : Nat) (cs : List Char) : Option ℤ :=
  match cs with
  | [] => none
  | sg :: o1 :: o2 :: ':' :: o3 :: o4 :: [] =>
    if (sg = '+' || sg = '-') && ([o1, o2, o3, o4]).all Char.isDigit then
      let oh := digitsToNat [o1, o2]
      let om := digitsToNat [o3, o4]
      if oh ≤ 23 && om ≤ 59 then
        let offMin : ℤ := (if sg = '-' then -1 else 1) * ((oh * 60 + om : Nat) : ℤ)
        some (tsToEpochUs y mo da hh mi ss fracUs offMin)
      else none
    else none
  | _ => none

/-- Parse `HH:MM[:SS[.frac]]` followed by the optional offset. -/
def parseTimeAndOffset (y mo da : Nat) (cs : List Char) : Option ℤ :=
  match cs with
  | h1 :: h2 :: ':' :: n1 :: n2 :: rest =>
    if ([h1, h2, n1, n2]).all Char.isDigit then
      let hh := digitsToNat [h1, h2]
      let mi := digitsToNat [n1, n2]
      if hh ≤ 23 && mi ≤ 59 then
        match rest with
        | ':' :: s1 :: s2 :: rest2 =>
          if ([s1, s2]).all Char.isDigit then
            let ss := digitsToNat [s1, s2]
            if ss ≤ 59 then
              match rest2 with
              | '.' :: rest3 =>
                let frac := rest3.takeWhile Char.isDigit
                let rest4 := rest3.dropWhile Char.isDigit
                if 1 ≤ frac.length && frac.length ≤ 6 then
                  parseOffsetTail y mo da hh mi ss (fracToMicros frac) rest4
                else none
              | _ => parseOffsetTail y mo da hh mi ss 0 rest2
            else none
          else none
        | _ => parseOffsetTail y mo da hh mi 0 0 rest
      else none
    else none
  | _ => none

/-- Model of `datetime.fromisoformat` restricted to offset-aware timestamps
(see the section comment): returns the POSIX timestamp in microseconds. -/
def parseAwareIso (cs : List Char) : Option ℤ :=
  match cs with
  | y1 :: y2 :: y3 :: y4 :: '-' :: m1 :: m2 :: '-' :: d1 :: d2 :: rest =>
    if ([y1, y2, y3, y4, m1, m2, d1, d2]).all Char.isDigit then
      let y := digitsToNat [y1, y2, y3, y4]
      let mo := digitsToNat [m1, m2]
      let da := digitsToNat [d1, d2]
      if 1 ≤ y && 1 ≤ mo && mo ≤ 12 && 1 ≤ da && da ≤ daysInMonth y mo then
        match rest with
        | [] => none
        | sep :: t => if sep = 'T' || sep = ' ' then parseTimeAndOffset y mo da t else none
      else none
    else none
  | _ => none

/-- Embedding of `_is_stale(updated_at_iso, ttl_days)` at current time
`nowUs` (POSIX microseconds): `True` for an absent or falsy string, `True`
when parsing (or the aware-naive subtraction) raises, and otherwise the
strict age comparison `age.total_seconds() > ttl_days * 86400`, carried out
exactly in microseconds. -/
def is_stale (updated_at_iso : Option String) (nowUs : ℤ) (ttl_days : ℤ) : Bool :=
  match updated_at_iso with
  | none => true
  | some s =>
    if s = "" then true
    else
      match parseAwareIso (replaceZ s.data) with
      | none => true
      | some ts => decide (nowUs - ts > ttl_days * 86400 * 1000000)

/-! ## Provider results and the merge policy
(`compute_and_cache_fundamentals`, `_pick_source`, `_screener_fetch_summary`)

`sec_data` and `yf_data` are dictionaries of known shape; `dict.get` on an
absent key returns `None`, so every data field is an `Option`.  The boolean
flags model the truthiness tests `sec_data.get("sec_ok")` and
`yf_data.get("yf_skipped")` (absent keys are falsy). -/

/-- Shape of the dictionary returned by `_sec_compute_metrics` as consumed by
the merge (all fields absent when `sec_ok` is false). -/
structure SecData where
  sec_ok : Bool
  asof_date : Option String
  revenue_ttm : Option ℚ
  net_income_ttm : Option ℚ
  fcf_ttm : Option ℚ
  debt_to_equity : Option ℚ
  roe : Option ℚ
deriving DecidableEq, Repr

/-- Shape of the dictionary returned by `_yf_fetch_summary` as consumed by the
merge. -/
structure YfData where
  yf_skipped : Bool
  currency : Option String
  market_cap : Option ℚ
  pe : Option ℚ
  pb : Option ℚ
  revenue_ttm : Option ℚ
  net_income_ttm : Option ℚ
  fcf_ttm : Option ℚ
  debt_to_equity : Option ℚ
  roe : Option ℚ
deriving DecidableEq, Repr

/-- The merged record built by `compute_and_cache_fundamentals` (the columns
of `fundamentals_latest`, minus the opaque `raw_json` blob). -/
structure FundRecord where
  market : String
  symbol : String
  currency : Option String
  asof_date : Option String
  updated_at : String
  source : String
  market_cap : Option ℚ
  pe : Option ℚ
  pb : Option ℚ
  revenue_ttm : Option ℚ
  net_income_ttm : Option ℚ
  fcf_ttm : Option ℚ
  debt_to_equity : Option ℚ
  roe : Option ℚ
deriving DecidableEq, Repr

/-- Model of the Python idiom `x or None` on an optional string (an empty
string is falsy and collapses to `None`). -/
def pyOrNoneStr (o : Option String) : Option String :=
  match o with
  | some s => if s = "" then none else some s
  | none => none

/-- Embedding of `_pick_source`. -/
def pick_source (market_u : String) (sec : SecData) (yf : YfData) : String :=
  if market_u = "IN" then "screener"
  else if sec.sec_ok ∧ ¬yf.yf_skipped then "sec+yf"
  else if sec.sec_ok then "sec"
  else "yf"

/-- Embedding of the domestic-market merge assignment in
`compute_and_cache_fundamentals` (the `merged = {...}` block of the non-IN
branch). -/
def mergeDomestic (market_u symbol_u : String) (sec : SecData) (yf : YfData)
    (now_iso : String) : FundRecord :=
  { market := market_u
    symbol := symbol_u
    currency := yf.currency
    asof_date := pyOrNoneStr sec.asof_date
    updated_at := now_iso
    source := pick_source market_u sec yf
    market_cap := yf.market_cap
    pe := yf.pe
    pb := yf.pb
    revenue_ttm := if sec.sec_ok then sec.revenue_ttm else yf.revenue_ttm
    net_income_ttm := if sec.sec_ok then sec.net_income_ttm else yf.net_income_ttm
    fcf_ttm := if sec.sec_ok then sec.fcf_ttm else yf.fcf_ttm
    debt_to_equity := if sec.sec_ok then sec.debt_to_equity else yf.debt_to_equity
    roe := if sec.sec_ok then sec.roe else yf.roe }

/-! ## Screener summary and the foreign-market merge -/

/-- The scraped page snapshot (`ScreenerSnapshot` dataclass of
`screener_client.py`), with the identifying and raw-diagnostic fields that
the summary copies verbatim omitted. -/
structure ScreenerSnapshot where
  currency : String
  market_cap_inr : Option ℚ
  current_price_inr : Option ℚ
  book_value_inr : Option ℚ
  pe : Option ℚ
  pb : Option ℚ
  roe_pct : Option ℚ
deriving DecidableEq, Repr

/-- Shape of the dictionary returned by `_screener_fetch_summary`. -/
structure ScreenerSummary where
  currency : String
  market_cap : Option ℚ
  pe : Option ℚ
  pb : Option ℚ
  revenue_ttm : Option ℚ
  net_income_ttm : Option ℚ
  fcf_ttm : Option ℚ
  debt_to_equity : Option ℚ
  roe : Option ℚ
deriving DecidableEq, Repr

/-- Embedding of `_screener_fetch_summary`: builds the yfinance-like summary
from a snapshot; the TTM and debt fields are hard-coded to `None` and the ROE
percentage is converted to a decimal. -/
def screener_fetch_summary (snap : ScreenerSnapshot) : ScreenerSummary :=
  { currency := snap.currency
    market_cap := snap.market_cap_inr
    pe := snap.pe
    pb := snap.pb
    revenue_ttm := none
    net_income_ttm := none
    fcf_ttm := none
    debt_to_equity := none
    roe := snap.roe_pct.map (fun r => r / 100) }

/-- Embedding of the IN-branch merge assignment in
`compute_and_cache_fundamentals` (the `merged = {...}` block guarded by
`market_u == "IN"`). -/
def mergeIN (symbol_u : String) (sc : ScreenerSummary) (now_iso : String) : FundRecord :=
  { market := "IN"
    symbol := symbol_u
    currency := some sc.currency
    asof_date := none
    updated_at := now_iso
    source := "screener"
    market_cap := sc.market_cap
    pe := sc.pe
    pb := sc.pb
    revenue_ttm := none
    net_income_ttm := none
    fcf_ttm := none
    debt_to_equity := none
    roe := sc.roe }

/-! ## Key normalisation
(`get_cached_fundamentals`, `upsert_fundamentals`, `compute_and_cache_fundamentals`) -/

/-- The `(market, symbol)` key used by `get_cached_fundamentals`:
`(market.upper(), symbol.upper())` — no strip. -/
def get_cached_key (market symbol : String) : String × String :=
  (pyUpper market, pyUpper symbol)

/-- The `(market, symbol)` values written by `upsert_fundamentals`:
`(market.upper(), symbol.upper())` — no strip. -/
def upsert_key (market symbol : String) : String × String :=
  (pyUpper market, pyUpper symbol)

/-- The normalised market and symbol computed by
`compute_and_cache_fundamentals`: `(market or "US").upper().strip()` and
`(symbol or "").upper().strip()`. -/
def compute_norm (market symbol : String) : String × String :=
  (pyStrip (pyUpper (if market = "" then "US" else market)),
   pyStrip (pyUpper symbol))

/-- The row stored by `upsert_fundamentals`: the key columns are upper-cased
and the payload columns are written verbatim. -/
def upsert_row (market symbol : String) (payload : FundRecord) : FundRecord :=
  { payload with market := pyUpper market, symbol := pyUpper symbol }

/-- The single-flight key `f"{market_u}:{symbol_u}:r{1 if force_refresh else 0}"`. -/
def singleflight_key (market symbol : String) (force_refresh : Bool) : String :=
  (compute_norm market symbol).1 ++ ":" ++ (compute_norm market symbol).2 ++
    ":r" ++ (if force_refresh then "1" else "0")

/-! ## Throttled provider heavy-endpoint loop (`_yf_fetch_summary`)

The `for base_sleep in backoffs` loop over `t.info` is embedded as a pure
function of the per-attempt outcome of `t.info` (success with a parsed info
dictionary, or an exception message).  Alongside the resulting `out`
dictionary it produces the trace of observable side effects: heavy-endpoint
calls, global cooldowns, per-symbol soft-fails, and backoff sleeps.  The
jitter term `random.random() * 0.35` is a parameter `jitter i ∈ [0, 0.35)`.
Exception text is modelled as one string serving both `str(e)` (signature
matching) and `repr(e)` (error recording). -/

/-- Default of `YAHOO_COOLDOWN_SECONDS` (global cooldown, seconds). -/
def YAHOO_COOLDOWN_SECONDS : ℤ := 90

/-- Default of `YAHOO_FAIL_SOFTCACHE_MINUTES` (per-symbol soft-fail, minutes). -/
def YAHOO_FAIL_SOFTCACHE_MINUTES : ℤ := 30

/-- Embedding of the rate-limit signature test
`"too many requests" in msg or "429" in msg or "expecting value" in msg`
applied to `str(e).lower()`. -/
def is_rate_limit_msg (msg : String) : Bool :=
  let m := (pyLower msg).data
  containsCs "too many requests".data m || containsCs "429".data m ||
    containsCs "expecting value".data m

/-- The fields extracted from a successful `t.info` dictionary, each already
passed through `_to_float` (numbers) or kept as text (currency). -/
structure YfInfo where
  marketCap : Option ℚ
  trailingPE : Option ℚ
  forwardPE : Option ℚ
  priceToBook : Option ℚ
  totalRevenue : Option ℚ
  netIncomeToCommon : Option ℚ
  returnOnEquity : Option ℚ
  debtToEquity : Option ℚ
  freeCashflow : Option ℚ
  currency : Option String
deriving DecidableEq, Repr

/-- The mutable `out` dictionary of `_yf_fetch_summary` (minus `raw_yf`). -/
structure YfOut where
  currency : Option String
  market_cap : Option ℚ
  pe : Option ℚ
  pb : Option ℚ
  revenue_ttm : Option ℚ
  net_income_ttm : Option ℚ
  fcf_ttm : Option ℚ
  debt_to_equity : Option ℚ
  roe : Option ℚ
  yf_error : Option String
deriving DecidableEq, Repr

/-- Python `a or b` on optional floats: `None` and `0.0` are falsy. -/
def pyOrOptQ (a b : Option ℚ) : Option ℚ :=
  match a with
  | some x => if x = 0 then b else some x
  | none => b

/-- Python `a or b` on optional strings: `None` and `""` are falsy. -/
def pyOrOptStr (a b : Option String) : Option String :=
  match a with
  | some s => if s = "" then b else some s
  | none => b

/-- The update of `out` performed by a successful `t.info` call (the body of
the `try` block). -/
def applyInfo (out : YfOut) (info : YfInfo) : YfOut :=
  { out with
    market_cap := pyOrOptQ info.marketCap out.market_cap
    pe := pyOrOptQ info.trailingPE info.forwardPE
    pb := info.priceToBook
    currency := pyOrOptStr info.currency out.currency
    revenue_ttm := info.totalRevenue
    net_income_ttm := info.netIncomeToCommon
    roe := info.returnOnEquity
    debt_to_equity := info.debtToEquity
    fcf_ttm := info.freeCashflow }

/-- Observable side effects of the heavy-endpoint loop. -/
inductive YfEvent where
  /-- a heavy `t.info` call was issued (behind `_yahoo_rate_limit`) -/
  | infoCall
  /-- `_yahoo_block_for(seconds)` was applied -/
  | globalBlock (seconds : ℤ)
  /-- `_yahoo_symbol_softblock(sym, minutes)` was applied -/
  | softBlock (sym : String) (minutes : ℤ)
  /-- `time.sleep(amount)` was executed -/
  | sleepFor (amount : ℚ)
deriving DecidableEq, Repr

/-- The backoff schedule `backoffs = [1.0, 2.0, 4.0]`. -/
def backoffs : List ℚ := [1, 2, 4]

/-- Embedding of the heavy-endpoint loop of `_yf_fetch_summary`: walks the
remaining backoff schedule from attempt index `i`, consulting `outcomes i`
for the result of each `t.info` call, and returns the final `out` dictionary
paired with the side-effect trace.  `last_err` carries the last recorded
exception for the give-up branch. -/
def yf_heavy_go (sym : String) (outcomes : ℕ → Except String YfInfo)
    (jitter : ℕ → ℚ) : List ℚ → ℕ → YfOut → Option String → YfOut × List YfEvent
  | [], _, out, last_err => ({ out with yf_error := some (last_err.getD "unknown") }, [])
  | base :: rest, i, out, _ =>
    match outcomes i with
    | .ok info => (applyInfo out info, [.infoCall])
    | .error msg =>
      if is_rate_limit_msg msg then
        let next := yf_heavy_go sym outcomes jitter rest (i + 1) out (some msg)
        (next.1,
         .infoCall :: .globalBlock YAHOO_COOLDOWN_SECONDS ::
           .softBlock sym YAHOO_FAIL_SOFTCACHE_MINUTES ::
           .sleepFor (base + jitter i) :: next.2)
      else
        ({ out with yf_error := some msg },
         [.infoCall, .softBlock sym YAHOO_FAIL_SOFTCACHE_MINUTES])

/-- The heavy-endpoint loop started on the full backoff schedule with
`last_err = None`, as in the source. -/
def yf_heavy_fetch (sym : String) (outcomes : ℕ → Except String YfInfo)
    (jitter : ℕ → ℚ) (out : YfOut) : YfOut × List YfEvent :=
  yf_heavy_go sym outcomes jitter backoffs 0 out none

/-! ## Regulatory filings metrics (`_sec_compute_metrics` and helpers)

A companyfacts document is embedded as the per-tag fact series that
`_pick_facts_series` extracts (an absent tag is the empty list).  A fact item
carries `end`, `fp` and `form` as optional strings (`dict.get`) and `val` as
the already-applied `_to_float` of its value.  Python float division is
modelled by `pyDivQ`, which raises (`Except.error`) on a zero divisor, and the
unguarded `None + float` addition in the debt branch raises `typeError`, so
the embedding exposes exactly the places where the source could raise. -/

/-- Arithmetic errors the embedded computation can raise. -/
inductive PyError where
  | typeError
  | zeroDivisionError
deriving DecidableEq, Repr

/-- Python float division: raises `ZeroDivisionError` on a zero divisor. -/
def pyDivQ (a b : ℚ) : Except PyError ℚ :=
  if b = 0 then .error .zeroDivisionError else .ok (a / b)

/-- One entry of a facts series (`units` list element). -/
structure FactItem where
  end_ : Option String
  fp : Option String
  form : Option String
  val : Option ℚ
deriving DecidableEq, Repr

/-- Embedding of `_latest_by_end`: the first item with the lexicographically
greatest non-falsy `end` (a strictly greater `end` replaces the current
best). -/
def latest_by_end (items : List FactItem) : Option FactItem :=
  (items.foldl (fun acc it =>
    match it.end_ with
    | none => acc
    | some e =>
      if e = "" then acc
      else
        match acc with
        | none => some (it, e)
        | some (_, be) => if be < e then some (it, e) else acc) none).map Prod.fst

/-- The accepted filing forms of `_last_n_quarters`. -/
def valid_forms : List String := ["10-Q", "10-K", "20-F", "40-F"]

/-- The accepted quarterly fiscal periods of `_last_n_quarters`. -/
def quarter_fps : List String := ["Q1", "Q2", "Q3", "Q4"]

/-- Stable insertion into a list kept in descending `end` order (an item with
an equal key goes after the existing ones, as CPython's stable
`sort(reverse=True)`). -/
def insertByEndDesc (it : FactItem) : List FactItem → List FactItem
  | [] => [it]
  | b :: rest =>
    if (b.end_).getD "" < (it.end_).getD "" then it :: b :: rest
    else b :: insertByEndDesc it rest

/-- Stable descending sort by `end` (`filtered.sort(key=end, reverse=True)`). -/
def sortByEndDesc (l : List FactItem) : List FactItem :=
  l.foldl (fun acc it => insertByEndDesc it acc) []

/-- Embedding of `_last_n_quarters`: keep quarterly filings of an accepted
form with a non-falsy `end`, sort by `end` descending, take `n`. -/
def last_n_quarters (items : List FactItem) (n : ℕ) : List FactItem :=
  let filtered := items.filter (fun it =>
    valid_forms.contains (pyUpper ((it.form).getD "")) &&
    quarter_fps.contains (pyUpper ((it.fp).getD "")) &&
    (match it.end_ with | none => false | some e => e ≠ ""))
  (sortByEndDesc filtered).take n

/-- Embedding of `_sum_vals`: the sum of the present values, or `None` when
no value is present. -/
def sum_vals (items : List FactItem) : Option ℚ :=
  let vals := items.filterMap (fun it => it.val)
  if vals.isEmpty then none else some (vals.foldl (fun a b => a + b) 0)

/-- The companyfacts series used by `_sec_compute_metrics`, as produced by its
`_pick_facts_series` calls (absent tags give empty lists). -/
structure CompanyFacts where
  revenues : List FactItem
  salesRevenueNet : List FactItem
  netIncomeLoss : List FactItem
  opCashFlow : List FactItem
  capex : List FactItem
  equity : List FactItem
  equityIncl : List FactItem
  debtCurrent : List FactItem
  debtLongTerm : List FactItem
  liabilities : List FactItem
deriving DecidableEq, Repr

/-- The revenue series with its fallback (`if not rev: rev = SalesRevenueNet`). -/
def rev_series (cf : CompanyFacts) : List FactItem :=
  if cf.revenues.isEmpty then cf.salesRevenueNet else cf.revenues

/-- The equity series with its fallback to the noncontrolling-interest tag. -/
def equity_series (cf : CompanyFacts) : List FactItem :=
  if cf.equity.isEmpty then cf.equityIncl else cf.equity

/-- Four-quarter TTM figure with the latest-annual fallback (`rev4` / `ni4`
computation): sum the last four quarters, else the latest `FY` value. -/
def ttm_with_fy_fallback (items : List FactItem) : Option ℚ :=
  match sum_vals (last_n_quarters items 4) with
  | some v => some v
  | none =>
    match latest_by_end (items.filter (fun it => pyUpper ((it.fp).getD "") = "FY")) with
    | some it => it.val
    | none => none

/-- The latest equity item of the document. -/
def eq_latest_item_of (cf : CompanyFacts) : Option FactItem :=
  latest_by_end (equity_series cf)

/-- The as-of date taken from the latest equity item. -/
def asof0_of (cf : CompanyFacts) : Option String :=
  match eq_latest_item_of cf with
  | some it => it.end_
  | none => none

/-- Free-cash-flow TTM: operating cash flow plus (negative) capex over the
four-quarter window, when both are present. -/
def fcf4_of (cf : CompanyFacts) : Option ℚ :=
  match sum_vals (last_n_quarters cf.opCashFlow 4), sum_vals (last_n_quarters cf.capex 4) with
  | some o, some cp => some (o + cp)
  | _, _ => none

/-- The latest equity value (denominator of both ratios). -/
def eq_latest_of (cf : CompanyFacts) : Option ℚ :=
  match eq_latest_item_of cf with
  | some it => it.val
  | none => none

/-- Net-income TTM (numerator of ROE). -/
def ni4_of (cf : CompanyFacts) : Option ℚ :=
  ttm_with_fy_fallback cf.netIncomeLoss

/-- The debt figure together with the possibly updated as-of date: current
plus long-term debt when either exists (raising `typeError` when a present
item has no parseable value, as `None + float` does), else the latest total
liabilities. -/
def debt_and_asof (cf : CompanyFacts) (asof0 : Option String) :
    Except PyError (Option ℚ × Option String) :=
  match latest_by_end cf.debtCurrent, latest_by_end cf.debtLongTerm with
  | none, none =>
    match latest_by_end cf.liabilities with
    | some it => .ok (it.val, if asof0 = none then it.end_ else asof0)
    | none => .ok (none, asof0)
  | dcur, dlt =>
    let a : Option ℚ := match dcur with | some it => it.val | none => some 0
    let b : Option ℚ := match dlt with | some it => it.val | none => some 0
    match a, b with
    | some x, some y => .ok (some (x + y), asof0)
    | _, _ => .error .typeError

/-- The guarded ratio assignment (`x = None; if num is not None and den not in
(None, 0.0): x = num / den`), with the division routed through `pyDivQ`. -/
def guarded_div (num den : Option ℚ) : Except PyError (Option ℚ) :=
  match num, den with
  | some n, some d => if d = 0 then .ok none else (pyDivQ n d).map some
  | _, _ => .ok none

/-- Embedding of `_sec_compute_metrics`, given the resolved identifier (or
`None`/empty when `_get_cik_for_symbol` found nothing) and the fetched
companyfacts series.  The network fetch itself and `raw_sec` are outside this
model. -/
def sec_compute_metrics (cik10 : Option String) (cf : CompanyFacts) :
    Except PyError SecData :=
  match cik10 with
  | none => .ok ⟨false, none, none, none, none, none, none⟩
  | some c =>
    if c = "" then .ok ⟨false, none, none, none, none, none, none⟩
    else
      match debt_and_asof cf (asof0_of cf) with
      | .error e => .error e
      | .ok (debt_latest, asof) =>
        match guarded_div debt_latest (eq_latest_of cf) with
        | .error e => .error e
        | .ok d2e =>
          match guarded_div (ni4_of cf) (eq_latest_of cf) with
          | .error e => .error e
          | .ok roe =>
            .ok { sec_ok := true
                  asof_date := asof
                  revenue_ttm := ttm_with_fy_fallback (rev_series cf)
                  net_income_ttm := ni4_of cf
                  fcf_ttm := fcf4_of cf
                  debt_to_equity := d2e
                  roe := roe }

/-! ## Claim theorems -/

/-- C2: CooldownGate monotonicity.  `_yahoo_block_for(d)` sets the shared
blocked-until timestamp to `max(current, now + d)`, so it never shortens an
active block; after `_yahoo_block_for(90)` the gate reads blocked at the same
instant and unblocked at any time at or past the new timestamp; and
`_yahoo_symbol_softblock` applies the same max rule to the normalised key,
leaving every other key untouched and never lowering an existing expiry. -/
theorem cooldown_gate_monotone (b now d t mins : ℚ) (f : String → Option ℚ) (sym : String) :
    (yahoo_block_for b now d = max b (now + d)) ∧
    (b ≤ yahoo_block_for b now d) ∧
    (yahoo_is_blocked (yahoo_block_for b now 90) now = true) ∧
    (yahoo_block_for b now 90 ≤ t → yahoo_is_blocked (yahoo_block_for b now 90) t = false) ∧
    (pyStrip (pyUpper sym) ≠ "" →
      yahoo_symbol_softblock f sym now mins (pyStrip (pyUpper sym)) =
        some (max ((f (pyStrip (pyUpper sym))).getD 0) (now + mins * 60))) ∧
    (∀ k, k ≠ pyStrip (pyUpper sym) → yahoo_symbol_softblock f sym now mins k = f k) ∧
    (∀ u, f (pyStrip (pyUpper sym)) = some u →
      u ≤ (yahoo_symbol_softblock f sym now mins (pyStrip (pyUpper sym))).getD 0) := by
  have h5 : pyStrip (pyUpper sym) ≠ "" →
      yahoo_symbol_softblock f sym now mins (pyStrip (pyUpper sym)) =
        some (max ((f (pyStrip (pyUpper sym))).getD 0) (now + mins * 60)) := by
    intro h
    simp [yahoo_symbol_softblock, h]
  refine ⟨rfl, le_max_left _ _, ?_, ?_, h5, ?_, ?_⟩
  · simp only [yahoo_is_blocked, yahoo_block_for, decide_eq_true_eq, lt_max_iff]
    right
    linarith
  · intro h
    simp only [yahoo_is_blocked, decide_eq_false_iff_not, not_lt]
    exact h
  · intro k hk
    by_cases hs : pyStrip (pyUpper sym) = "" <;> simp [yahoo_symbol_softblock, hs, hk]
  · intro u hu
    by_cases hs : pyStrip (pyUpper sym) = ""
    · rw [hs] at hu
      simp [yahoo_symbol_softblock, hs, hu]
    · rw [h5 hs, hu]
      simp [le_max_iff]

/-- C2 witness: concrete instances of the hypothesis-bearing conjuncts of
`cooldown_gate_monotone`. -/
theorem cooldown_gate_monotone_witness :
    yahoo_is_blocked (yahoo_block_for 0 0 90) 100 = false ∧
    yahoo_symbol_softblock (fun _ => some 7) " aapl" 0 30 (pyStrip (pyUpper " aapl")) =
      some (max (((fun _ : String => some (7 : ℚ)) (pyStrip (pyUpper " aapl"))).getD 0)
        (0 + 30 * 60)) ∧
    (7 : ℚ) ≤
      (yahoo_symbol_softblock (fun _ => some 7) " aapl" 0 30 (pyStrip (pyUpper " aapl"))).getD 0 := by
  have h := cooldown_gate_monotone 0 0 5 100 30 (fun _ => some 7) " aapl"
  exact ⟨h.2.2.2.1 (by norm_num [yahoo_block_for]), h.2.2.2.2.1 (by decide),
    h.2.2.2.2.2.2 7 rfl⟩

/-- C5: the staleness predicate returns true for an absent `updated_at`, true
when the timestamp cannot be used (parse failure, or a naive result making
the age subtraction raise), and otherwise compares the age strictly against
`ttl_days * 86400` seconds. -/
theorem is_stale_spec (now : ℤ) (ttl : ℤ) :
    (is_stale none now ttl = true) ∧
    (∀ s : String, parseAwareIso (replaceZ s.data) = none → is_stale (some s) now ttl = true) ∧
    (∀ s : String, ∀ ts : ℤ, parseAwareIso (replaceZ s.data) = some ts →
      (now - ts > ttl * 86400 * 1000000 → is_stale (some s) now ttl = true) ∧
      (now - ts ≤ ttl * 86400 * 1000000 → is_stale (some s) now ttl = false)) := by
  refine ⟨rfl, ?_, ?_⟩
  · intro s h
    by_cases hs : s = "" <;> simp [is_stale, hs, h]
  · intro s ts h
    have hs : ¬s = "" := by
      intro hs
      rw [hs] at h
      exact Option.noConfusion ((rfl : parseAwareIso (replaceZ ("".data)) = none) ▸ h)
    constructor <;> intro hcmp <;> simp [is_stale, hs, h] <;> omega

/-- C5 witness: an unparseable string is stale, a timestamp older than the
30-day TTL is stale, and one within the TTL is fresh (against a fixed `now`
of POSIX microsecond time `1700000000e6`). -/
theorem is_stale_spec_witness :
    is_stale (some "not a timestamp") 1700000000000000 30 = true ∧
    is_stale (some "2020-01-01T00:00:00Z") 1700000000000000 30 = true ∧
    is_stale (some "2023-11-14T00:00:00Z") 1700000000000000 30 = false := by
  have h := is_stale_spec 1700000000000000 30
  exact ⟨h.2.1 _ (by decide),
    (h.2.2 "2020-01-01T00:00:00Z" 1577836800000000 (by decide)).1 (by decide),
    (h.2.2 "2023-11-14T00:00:00Z" 1699920000000000 (by decide)).2 (by decide)⟩

/-- C1: domestic-market merge precedence.  When the filings result reports
success the five fundamental figures come from it, otherwise they fall back
to the throttled-market-data result, while currency, market cap, P/E and P/B
always come from the market-data result. -/
theorem merge_domestic_precedence (symbol_u now_iso : String) (sec : SecData) (yf : YfData) :
    (sec.sec_ok = true →
      (mergeDomestic "US" symbol_u sec yf now_iso).revenue_ttm = sec.revenue_ttm ∧
      (mergeDomestic "US" symbol_u sec yf now_iso).net_income_ttm = sec.net_income_ttm ∧
      (mergeDomestic "US" symbol_u sec yf now_iso).fcf_ttm = sec.fcf_ttm ∧
      (mergeDomestic "US" symbol_u sec yf now_iso).debt_to_equity = sec.debt_to_equity ∧
      (mergeDomestic "US" symbol_u sec yf now_iso).roe = sec.roe) ∧
    (sec.sec_ok = false →
      (mergeDomestic "US" symbol_u sec yf now_iso).revenue_ttm = yf.revenue_ttm ∧
      (mergeDomestic "US" symbol_u sec yf now_iso).net_income_ttm = yf.net_income_ttm ∧
      (mergeDomestic "US" symbol_u sec yf now_iso).fcf_ttm = yf.fcf_ttm ∧
      (mergeDomestic "US" symbol_u sec yf now_iso).debt_to_equity = yf.debt_to_equity ∧
      (mergeDomestic "US" symbol_u sec yf now_iso).roe = yf.roe) ∧
    (mergeDomestic "US" symbol_u sec yf now_iso).currency = yf.currency ∧
    (mergeDomestic "US" symbol_u sec yf now_iso).market_cap = yf.market_cap ∧
    (mergeDomestic "US" symbol_u sec yf now_iso).pe = yf.pe ∧
    (mergeDomestic "US" symbol_u sec yf now_iso).pb = yf.pb := by
  refine ⟨?_, ?_, rfl, rfl, rfl, rfl⟩ <;> intro h <;>
    simp [mergeDomestic, h]

/-- C1 witness: the spec's example.  With a successful filings result
reporting revenue 100 against a market-data result reporting 200 the merge
keeps 100; with a failed filings result it keeps 200. -/
theorem merge_domestic_precedence_witness :
    (mergeDomestic "US" "AAPL"
        ⟨true, none, some 100, none, none, none, none⟩
        ⟨false, some "USD", none, none, none, some 200, none, none, none, none⟩
        "t").revenue_ttm = some 100 ∧
    (mergeDomestic "US" "AAPL"
        ⟨false, none, some 100, none, none, none, none⟩
        ⟨false, some "USD", none, none, none, some 200, none, none, none, none⟩
        "t").revenue_ttm = some 200 := by
  constructor
  · exact ((merge_domestic_precedence "AAPL" "t"
      ⟨true, none, some 100, none, none, none, none⟩
      ⟨false, some "USD", none, none, none, some 200, none, none, none, none⟩).1 rfl).1
  · exact ((merge_domestic_precedence "AAPL" "t"
      ⟨false, none, some 100, none, none, none, none⟩
      ⟨false, some "USD", none, none, none, some 200, none, none, none, none⟩).2.1 rfl).1

/-- C6: the source label is `screener` for the foreign market; for the
domestic market it is `sec+yf` when the filings fetch succeeded and the
market-data fetch was not skipped (the only success signal the source
tracks for that provider), `sec` when the filings fetch succeeded but the
market-data fetch was skipped, and `yf` otherwise. -/
theorem pick_source_spec (sec : SecData) (yf : YfData) :
    (pick_source "IN" sec yf = "screener") ∧
    (sec.sec_ok = true → yf.yf_skipped = false → pick_source "US" sec yf = "sec+yf") ∧
    (sec.sec_ok = true → yf.yf_skipped = true → pick_source "US" sec yf = "sec") ∧
    (sec.sec_ok = false → pick_source "US" sec yf = "yf") := by
  refine ⟨rfl, ?_, ?_, ?_⟩
  · intro h1 h2
    simp [pick_source, h1, h2]
  · intro h1 h2
    simp [pick_source, h1, h2]
  · intro h1
    simp [pick_source, h1]

/-- C6 witness: the four labels at concrete provider results. -/
theorem pick_source_spec_witness :
    pick_source "IN" ⟨false, none, none, none, none, none, none⟩
      ⟨false, none, none, none, none, none, none, none, none, none⟩ = "screener" ∧
    pick_source "US" ⟨true, none, none, none, none, none, none⟩
      ⟨false, none, none, none, none, none, none, none, none, none⟩ = "sec+yf" ∧
    pick_source "US" ⟨true, none, none, none, none, none, none⟩
      ⟨true, none, none, none, none, none, none, none, none, none⟩ = "sec" ∧
    pick_source "US" ⟨false, none, none, none, none, none, none⟩
      ⟨false, none, none, none, none, none, none, none, none, none⟩ = "yf" := by
  refine ⟨(pick_source_spec _ _).1, ?_, ?_, ?_⟩
  · exact (pick_source_spec _ _).2.1 rfl rfl
  · exact (pick_source_spec _ _).2.2.1 rfl rfl
  · exact (pick_source_spec _ _).2.2.2 rfl

/-- C10: the foreign-market (IN) branch hard-codes the TTM figures, the
debt-to-equity ratio and the as-of date to null, both in the provider
summary and in the merged and persisted record, whatever the scrape
returned. -/
theorem foreign_market_nulls (symbol_u now_iso : String) (snap : ScreenerSnapshot) :
    ((screener_fetch_summary snap).revenue_ttm = none ∧
     (screener_fetch_summary snap).net_income_ttm = none ∧
     (screener_fetch_summary snap).fcf_ttm = none ∧
     (screener_fetch_summary snap).debt_to_equity = none) ∧
    ((mergeIN symbol_u (screener_fetch_summary snap) now_iso).revenue_ttm = none ∧
     (mergeIN symbol_u (screener_fetch_summary snap) now_iso).net_income_ttm = none ∧
     (mergeIN symbol_u (screener_fetch_summary snap) now_iso).fcf_ttm = none ∧
     (mergeIN symbol_u (screener_fetch_summary snap) now_iso).debt_to_equity = none ∧
     (mergeIN symbol_u (screener_fetch_summary snap) now_iso).asof_date = none) ∧
    ((upsert_row "IN" symbol_u
        (mergeIN symbol_u (screener_fetch_summary snap) now_iso)).revenue_ttm = none ∧
     (upsert_row "IN" symbol_u
        (mergeIN symbol_u (screener_fetch_summary snap) now_iso)).net_income_ttm = none ∧
     (upsert_row "IN" symbol_u
        (mergeIN symbol_u (screener_fetch_summary snap) now_iso)).fcf_ttm = none ∧
     (upsert_row "IN" symbol_u
        (mergeIN symbol_u (screener_fetch_summary snap) now_iso)).debt_to_equity = none ∧
     (upsert_row "IN" symbol_u
        (mergeIN symbol_u (screener_fetch_summary snap) now_iso)).asof_date = none) :=
  ⟨⟨rfl, rfl, rfl, rfl⟩, ⟨rfl, rfl, rfl, rfl, rfl⟩, ⟨rfl, rfl, rfl, rfl, rfl⟩⟩

/-- C9 counterexample: the claim says every public operation strips the
market and symbol, so that inputs differing only in surrounding whitespace
alias to the same cache key; but `get_cached_fundamentals` (like
`upsert_fundamentals`) only upper-cases, and the inputs `" us"` and `"us"`
produce different keys. -/
theorem key_normalization_cex :
    get_cached_key " us" "aapl" ≠ get_cached_key "us" "aapl" := by decide

/-- C9 amended: `compute_and_cache_fundamentals` upper-cases and strips the
market and symbol (defaulting an empty market to US), while the cache get and
upsert only upper-case them, so inputs differing only in letter case alias
across all three operations, but inputs differing in surrounding whitespace
alias only through the compute path; the market and symbol that compute
persists and returns are the upper-cased, stripped forms. -/
theorem key_normalization_amended :
    (∀ m s : String, get_cached_key m s = (pyUpper m, pyUpper s)) ∧
    (∀ m s : String, ∀ payload : FundRecord,
      (upsert_row m s payload).market = pyUpper m ∧
      (upsert_row m s payload).symbol = pyUpper s) ∧
    (∀ m s : String,
      compute_norm m s = (pyStrip (pyUpper (if m = "" then "US" else m)), pyStrip (pyUpper s))) ∧
    (∀ m s m' s' : String, pyUpper m = pyUpper m' → pyUpper s = pyUpper s' →
      get_cached_key m s = get_cached_key m' s' ∧ upsert_key m s = upsert_key m' s') ∧
    (∀ m s m' s' : String, m ≠ "" → m' ≠ "" →
      pyStrip (pyUpper m) = pyStrip (pyUpper m') →
      pyStrip (pyUpper s) = pyStrip (pyUpper s') →
      compute_norm m s = compute_norm m' s' ∧
      singleflight_key m s false = singleflight_key m' s' false) := by
  refine ⟨fun m s => rfl, fun m s payload => ⟨rfl, rfl⟩, fun m s => rfl, ?_, ?_⟩
  · intro m s m' s' hm hs
    exact ⟨by simp [get_cached_key, hm, hs], by simp [upsert_key, hm, hs]⟩
  · intro m s m' s' hm0 hm0' hm hs
    have hc : compute_norm m s = compute_norm m' s' := by
      simp [compute_norm, hm0, hm0', hm, hs]
    exact ⟨hc, by simp [singleflight_key, hc]⟩

/-- C9 amended witness: `" us"` and `"US"`, `"aapl "` and `"AAPL"` alias
through the compute path, and case-only variants alias in the cache key. -/
theorem key_normalization_amended_witness :
    (get_cached_key "us" "aapl" = get_cached_key "US" "AAPL" ∧
     upsert_key "us" "aapl" = upsert_key "US" "AAPL") ∧
    (compute_norm " us" "aapl " = compute_norm "US" "AAPL" ∧
     singleflight_key " us" "aapl " false = singleflight_key "US" "AAPL" false) :=
  ⟨key_normalization_amended.2.2.2.1 "us" "aapl" "US" "AAPL" (by decide) (by decide),
   key_normalization_amended.2.2.2.2 " us" "aapl " "US" "AAPL"
     (by decide) (by decide) (by decide) (by decide)⟩

/-- C8: scrape parsing and derived price-to-book.  A market-cap string with a
crore suffix parses to the extracted number times `1e7` (the spec's example
string yields `18458290000000`), and the snapshot's price-to-book is the
current price divided by the book value exactly when both are present and the
book value is non-zero (`1400 / 700 = 2`), and null otherwise. -/
theorem screener_parse_pb (text : List Char) (n p b : ℚ) :
    (parse_market_cap_to_inr "₹ 18,45,829 Cr.".data = some 18458290000000) ∧
    (screener_to_float (upperCs (stripCs (removeCommas text))) = some n →
      containsCs ['C', 'R'] (upperCs (stripCs (removeCommas text))) = true →
      parse_market_cap_to_inr text = some (n * 10 ^ 7)) ∧
    (derive_pb (some 1400) (some 700) = some 2) ∧
    (b ≠ 0 → derive_pb (some p) (some b) = some (p / b)) ∧
    (derive_pb (some p) none = none) ∧
    (derive_pb none (some b) = none) ∧
    (derive_pb (some p) (some 0) = none) := by
  refine ⟨?_, ?_, ?_, ?_, rfl, rfl, ?_⟩
  · have e1 : parse_market_cap_to_inr "₹ 18,45,829 Cr.".data =
        some (parseNumCs ['1', '8', '4', '5', '8', '2', '9'] * 10 ^ 7) := rfl
    have e2 : parseNumCs ['1', '8', '4', '5', '8', '2', '9'] = ((1845829 : ℕ) : ℚ) := rfl
    rw [e1, e2]
    simp only [Option.some.injEq]
    push_cast
    norm_num
  · intro h1 h2
    cases ht : text.isEmpty
    · simp only [parse_market_cap_to_inr, ht, Bool.false_eq_true, if_false, h1, h2, if_true]
    · exfalso
      have hnil : text = [] := by
        cases text with
        | nil => rfl
        | cons c cs => simp [List.isEmpty] at ht
      rw [hnil] at h1
      exact Option.noConfusion
        ((rfl : screener_to_float (upperCs (stripCs (removeCommas []))) = none) ▸ h1)
  · simp only [derive_pb]
    norm_num
  · intro hb
    simp [derive_pb, hb]
  · simp [derive_pb]

/-- C8 witness: concrete instances of the hypothesis-bearing conjuncts of
`screener_parse_pb`. -/
theorem screener_parse_pb_witness :
    parse_market_cap_to_inr "5 Cr".data = some (((5 : ℕ) : ℚ) * 10 ^ 7) ∧
    derive_pb (some 9) (some 3) = some ((9 : ℚ) / 3) := by
  constructor
  · exact (screener_parse_pb "5 Cr".data ((5 : ℕ) : ℚ) 0 0).2.1 rfl (by decide)
  · exact (screener_parse_pb [] 0 9 3).2.2.2.1 (by norm_num)

/-- C4: throttled-provider error policy.  A rate-limit-matching error applies
a global cooldown (90s default) and a per-symbol soft-fail (30min default)
and sleeps the backoff (1s, 2s, 4s plus jitter) before the next of at most
three heavy-endpoint attempts; after three matching failures the fetch gives
up recording the last error.  A non-matching error applies only the
per-symbol soft-fail and aborts at once with no retry and no global cooldown;
a success after a matching failure ends the loop with the fetched data. -/
theorem yf_error_policy (sym : String) (oc : ℕ → Except String YfInfo) (j : ℕ → ℚ)
    (out0 : YfOut) (m0 m1 m2 m : String) :
    (oc 0 = .error m0 → oc 1 = .error m1 → oc 2 = .error m2 →
      is_rate_limit_msg m0 = true → is_rate_limit_msg m1 = true →
      is_rate_limit_msg m2 = true →
      yf_heavy_fetch sym oc j out0 =
        ({ out0 with yf_error := some m2 },
         [.infoCall, .globalBlock 90, .softBlock sym 30, .sleepFor (1 + j 0),
          .infoCall, .globalBlock 90, .softBlock sym 30, .sleepFor (2 + j 1),
          .infoCall, .globalBlock 90, .softBlock sym 30, .sleepFor (4 + j 2)])) ∧
    (oc 0 = .error m → is_rate_limit_msg m = false →
      yf_heavy_fetch sym oc j out0 =
        ({ out0 with yf_error := some m }, [.infoCall, .softBlock sym 30])) ∧
    (∀ info, oc 0 = .error m0 → is_rate_limit_msg m0 = true → oc 1 = .ok info →
      yf_heavy_fetch sym oc j out0 =
        (applyInfo out0 info,
         [.infoCall, .globalBlock 90, .softBlock sym 30, .sleepFor (1 + j 0), .infoCall])) ∧
    (∀ info, oc 0 = .ok info →
      yf_heavy_fetch sym oc j out0 = (applyInfo out0 info, [.infoCall])) := by
  refine ⟨?_, ?_, ?_, ?_⟩
  · intro h0 h1 h2 r0 r1 r2
    simp [yf_heavy_fetch, backoffs, yf_heavy_go, h0, h1, h2, r0, r1, r2,
      YAHOO_COOLDOWN_SECONDS, YAHOO_FAIL_SOFTCACHE_MINUTES]
  · intro h0 r0
    simp [yf_heavy_fetch, backoffs, yf_heavy_go, h0, r0, YAHOO_FAIL_SOFTCACHE_MINUTES]
  · intro info h0 r0 h1
    simp [yf_heavy_fetch, backoffs, yf_heavy_go, h0, r0, h1,
      YAHOO_COOLDOWN_SECONDS, YAHOO_FAIL_SOFTCACHE_MINUTES]
  · intro info h0
    simp [yf_heavy_fetch, backoffs, yf_heavy_go, h0]

/-- C4 witness: concrete runs of the heavy-endpoint loop through
`yf_error_policy`: three rate-limited failures, one hard failure, a success
after one rate-limited failure, and an immediate success. -/
theorem yf_error_policy_witness :
    (yf_heavy_fetch "AAPL" (fun _ => .error "too many requests") (fun _ => 0)
        ⟨none, none, none, none, none, none, none, none, none, none⟩ =
      (⟨none, none, none, none, none, none, none, none, none, some "too many requests"⟩,
       [.infoCall, .globalBlock 90, .softBlock "AAPL" 30, .sleepFor (1 + 0),
        .infoCall, .globalBlock 90, .softBlock "AAPL" 30, .sleepFor (2 + 0),
        .infoCall, .globalBlock 90, .softBlock "AAPL" 30, .sleepFor (4 + 0)])) ∧
    (yf_heavy_fetch "AAPL" (fun _ => .error "boom") (fun _ => 0)
        ⟨none, none, none, none, none, none, none, none, none, none⟩ =
      (⟨none, none, none, none, none, none, none, none, none, some "boom"⟩,
       [.infoCall, .softBlock "AAPL" 30])) ∧
    (yf_heavy_fetch "AAPL"
        (fun i => if i = 0 then .error "HTTP Error 429"
          else .ok ⟨none, none, none, none, none, none, none, none, none, none⟩)
        (fun _ => 0) ⟨none, none, none, none, none, none, none, none, none, none⟩ =
      (applyInfo ⟨none, none, none, none, none, none, none, none, none, none⟩
          ⟨none, none, none, none, none, none, none, none, none, none⟩,
       [.infoCall, .globalBlock 90, .softBlock "AAPL" 30, .sleepFor (1 + 0), .infoCall])) ∧
    (yf_heavy_fetch "AAPL"
        (fun _ => .ok ⟨none, none, none, none, none, none, none, none, none, none⟩)
        (fun _ => 0) ⟨none, none, none, none, none, none, none, none, none, none⟩ =
      (applyInfo ⟨none, none, none, none, none, none, none, none, none, none⟩
          ⟨none, none, none, none, none, none, none, none, none, none⟩,
       [.infoCall])) := by
  refine ⟨?_, ?_, ?_, ?_⟩
  · exact (yf_error_policy "AAPL" (fun _ => .error "too many requests") (fun _ => 0)
      ⟨none, none, none, none, none, none, none, none, none, none⟩
      "too many requests" "too many requests" "too many requests" "x").1
      rfl rfl rfl (by decide) (by decide) (by decide)
  · exact (yf_error_policy "AAPL" (fun _ => .error "boom") (fun _ => 0)
      ⟨none, none, none, none, none, none, none, none, none, none⟩
      "x" "x" "x" "boom").2.1 rfl (by decide)
  · exact (yf_error_policy "AAPL"
      (fun i => if i = 0 then .error "HTTP Error 429"
        else .ok ⟨none, none, none, none, none, none, none, none, none, none⟩)
      (fun _ => 0) ⟨none, none, none, none, none, none, none, none, none, none⟩
      "HTTP Error 429" "x" "x" "x").2.2.1
      ⟨none, none, none, none, none, none, none, none, none, none⟩ rfl (by decide) rfl
  · exact (yf_error_policy "AAPL"
      (fun _ => .ok ⟨none, none, none, none, none, none, none, none, none, none⟩)
      (fun _ => 0) ⟨none, none, none, none, none, none, none, none, none, none⟩
      "x" "x" "x" "x").2.2.2
      ⟨none, none, none, none, none, none, none, none, none, none⟩ rfl

/-- The value computed by `guarded_div` (the guard makes it total). -/
def guarded_div_val (num den : Option ℚ) : Option ℚ :=
  match num, den with
  | some n, some d => if d = 0 then none else some (n / d)
  | _, _ => none

theorem guarded_div_eq (num den : Option ℚ) :
    guarded_div num den = .ok (guarded_div_val num den) := by
  cases num with
  | none => cases den <;> rfl
  | some n =>
    cases den with
    | none => rfl
    | some d =>
      by_cases hd : d = 0
      · simp [guarded_div, guarded_div_val, hd]
      · simp [guarded_div, guarded_div_val, pyDivQ, hd, Except.map]

theorem gdv_den_none (num : Option ℚ) : guarded_div_val num none = none := by
  cases num <;> rfl

theorem gdv_den_zero (num : Option ℚ) : guarded_div_val num (some 0) = none := by
  cases num with
  | none => rfl
  | some n => simp [guarded_div_val]

theorem gdv_num_none (den : Option ℚ) : guarded_div_val none den = none := by
  cases den <;> rfl

theorem debt_and_asof_error (cf : CompanyFacts) (a0 : Option String) (e : PyError) :
    debt_and_asof cf a0 = .error e → e = .typeError := by
  intro h
  unfold debt_and_asof at h
  rcases hdc : latest_by_end cf.debtCurrent with _ | itc <;>
    rcases hdl : latest_by_end cf.debtLongTerm with _ | itl <;>
    simp only [hdc, hdl] at h
  · rcases hlb : latest_by_end cf.liabilities with _ | itb <;> simp only [hlb] at h <;>
      exact Except.noConfusion h
  · rcases hv : itl.val with _ | v <;> simp only [hv] at h
    · injection h with h1
      exact h1.symm
    · exact Except.noConfusion h
  · rcases hv : itc.val with _ | v <;> simp only [hv] at h
    · injection h with h1
      exact h1.symm
    · exact Except.noConfusion h
  · rcases hv : itc.val with _ | v <;> rcases hw : itl.val with _ | w <;>
      simp only [hv, hw] at h
    · injection h with h1
      exact h1.symm
    · injection h with h1
      exact h1.symm
    · injection h with h1
      exact h1.symm
    · exact Except.noConfusion h

/-- C7: null ratios on bad denominators.  The filings metrics computation
yields null ROE and debt-to-equity whenever the latest equity (the
denominator) is missing or zero or the respective numerator is missing, and
it can never raise a division error. -/
theorem sec_metrics_null_ratios (cik10 : Option String) (cf : CompanyFacts) :
    (∀ e, sec_compute_metrics cik10 cf = .error e → e ≠ .zeroDivisionError) ∧
    (∀ m, sec_compute_metrics cik10 cf = .ok m →
      ((eq_latest_of cf = none ∨ eq_latest_of cf = some 0) →
        m.roe = none ∧ m.debt_to_equity = none) ∧
      (ni4_of cf = none → m.roe = none) ∧
      (∀ d a, debt_and_asof cf (asof0_of cf) = .ok (d, a) → d = none →
        m.debt_to_equity = none)) := by
  cases cik10 with
  | none =>
    refine ⟨fun e he => absurd he (by simp [sec_compute_metrics]), fun m hm => ?_⟩
    simp only [sec_compute_metrics, Except.ok.injEq] at hm
    subst hm
    exact ⟨fun _ => ⟨rfl, rfl⟩, fun _ => rfl, fun d a _ _ => rfl⟩
  | some c =>
    by_cases hc : c = ""
    · refine ⟨fun e he => absurd he (by simp [sec_compute_metrics, hc]), fun m hm => ?_⟩
      simp only [sec_compute_metrics, hc, if_true, Except.ok.injEq] at hm
      subst hm
      exact ⟨fun _ => ⟨rfl, rfl⟩, fun _ => rfl, fun d a _ _ => rfl⟩
    · rcases hda : debt_and_asof cf (asof0_of cf) with e0 | ⟨d, a⟩
      · refine ⟨fun e he => ?_, fun m hm => ?_⟩
        · simp only [sec_compute_metrics, hc, if_false, hda, Except.error.injEq] at he
          subst he
          have := debt_and_asof_error cf (asof0_of cf) e0 hda
          subst this
          intro h
          exact PyError.noConfusion h
        · simp only [sec_compute_metrics, hc, if_false, hda] at hm
          exact Except.noConfusion hm
      · refine ⟨fun e he => ?_, fun m hm => ?_⟩
        · simp only [sec_compute_metrics, hc, if_false, hda, guarded_div_eq] at he
          exact Except.noConfusion he
        · simp only [sec_compute_metrics, hc, if_false, hda, guarded_div_eq,
            Except.ok.injEq] at hm
          subst hm
          refine ⟨?_, ?_, ?_⟩
          · rintro (h | h) <;> rw [h]
            · exact ⟨gdv_den_none (ni4_of cf), gdv_den_none d⟩
            · exact ⟨gdv_den_zero (ni4_of cf), gdv_den_zero d⟩
          · intro h
            rw [h]
            exact gdv_num_none (eq_latest_of cf)
          · intro d' a' hda' hd'
            have hpair : (d, a) = (d', a') := by injection hda'
            have h2 : d = d' := congrArg Prod.fst hpair
            rw [h2, hd']
            exact gdv_num_none (eq_latest_of cf)

/-- C7 witness: on a document with no equity facts the computed metrics have
null ROE and debt-to-equity, and the error raised by an unparseable debt
value is a type error, not a division error. -/
theorem sec_metrics_null_ratios_witness :
    ((⟨true, none, none, none, none, none, none⟩ : SecData).roe = none ∧
     (⟨true, none, none, none, none, none, none⟩ : SecData).debt_to_equity = none) ∧
    PyError.typeError ≠ PyError.zeroDivisionError := by
  constructor
  · exact ((sec_metrics_null_ratios (some "0000320193")
      ⟨[], [], [], [], [], [], [], [], [], []⟩).2
      ⟨true, none, none, none, none, none, none⟩ (by rfl)).1 (Or.inl (by rfl))
  · exact (sec_metrics_null_ratios (some "1")
      ⟨[], [], [], [], [], [], [], [⟨some "2024-01-01", none, none, none⟩], [], []⟩).1
      .typeError (by rfl)

end MOS
